import Mathlib

/-!
Shallow embedding of `wav_file_util/wav_file.py` and the transform functions of
`wav_file_util/__main__.py` (repository Srokit/wav-file-util).

Python byte strings and bytearrays are modelled as `List Nat` whose entries are
byte values (each `< 256`); theorems carry the `< 256` bound as a hypothesis where
it matters.  Machine integers are `Nat` with explicit bounds.  Python exceptions
are modelled with `Except`: `Except.error` is an exception propagating out of the
modelled call.
-/

namespace WavUtil

/-- Python byte strings / bytearrays: a list of byte values. -/
abbrev Bytes := List Nat

/-- The exceptions the modelled code can raise.  `nonTermination` is not an
exception: it marks a Python loop that never exits (reachable only with
`num_channels = 0`, which validated headers exclude). -/
inductive PyErr where
  | structError
  | typeError
  | valueError
  | zeroDivisionError
  | assertionError
  | nonTermination
deriving DecidableEq, Repr

/-- Python slice `l[a:b]` (for `a ≤ b`): indices clamped to the list length. -/
def pySlice (l : Bytes) (a b : Nat) : Bytes := (l.drop a).take (b - a)

/-- Python slice `l[:-n]`: for `n = 0` this is `l[:0] = []` (the slip that destroys
4-byte samples); for `n > 0` it drops the last `n` entries. -/
def pyDropLast (l : Bytes) (n : Nat) : Bytes :=
  if n = 0 then [] else l.take (l.length - n)

/-- Python slice assignment `l[a:b] = repl` (for `a ≤ b`, indices clamped): the
replacement may differ in length from the replaced stretch, resizing the bytearray. -/
def pySliceAssign (l : Bytes) (a b : Nat) (repl : Bytes) : Bytes :=
  l.take a ++ repl ++ l.drop b

/-- Python `range(0, stop, step)` for `step > 0`: the multiples of `step` below
`stop`. -/
def pyRange0 (stop step : Nat) : List Nat :=
  List.range' 0 ((stop + step - 1) / step) step

/-- The first argument handed to `struct.pack` / `struct.unpack_from` by this code:
either the format string `'<I'` (little-endian unsigned 32-bit), or — for widths
above 4 bytes — the `bytearray(8 - bytes_per_sample)` that
`_get_per_sample_struct_format_str_and_padding` produces in its else branch, which
is not a valid format and makes `struct` raise `TypeError` when used. -/
inductive StructFmt where
  | leU32
  | invalidBytes (n : Nat)
deriving DecidableEq, Repr

/-- The four little-endian bytes of `struct.pack('<I', v)` for in-range `v`. -/
def pack_LEU32 (v : Nat) : Bytes :=
  [v % 256, v / 256 % 256, v / 65536 % 256, v / 16777216 % 256]

/-- Python `struct.pack(fmt, v)`: `'<I'` requires `0 ≤ v < 2^32` (struct.error
otherwise); a bytearray format raises `TypeError`. -/
def struct_pack : StructFmt → Nat → Except PyErr Bytes
  | .leU32, v => if v < 4294967296 then .ok (pack_LEU32 v) else .error .structError
  | .invalidBytes _, _ => .error .typeError

/-- Python `struct.unpack_from(fmt, buf)[0]`: `'<I'` needs at least 4 bytes of
buffer (struct.error otherwise) and reads the first 4 little-endian; a bytearray
format raises `TypeError`. -/
def struct_unpack_from : StructFmt → Bytes → Except PyErr Nat
  | .leU32, b0 :: b1 :: b2 :: b3 :: _ =>
      .ok (b0 + 256 * b1 + 65536 * b2 + 16777216 * b3)
  | .leU32, _ => .error .structError
  | .invalidBytes _, _ => .error .typeError

/-- Bytes of `struct.pack('>I', v)` (big-endian), used for the chunk-id header
fields; `struct.pack` itself demands `v < 2^32`, which the round-trip theorem takes
as a hypothesis. -/
def pack_BEU32 (v : Nat) : Bytes :=
  [v / 16777216 % 256, v / 65536 % 256, v / 256 % 256, v % 256]

/-- Bytes of `struct.pack('<H', v)` (little-endian 16-bit), demanding `v < 2^16`. -/
def pack_LEU16 (v : Nat) : Bytes := [v % 256, v / 256 % 256]

/-- Value of `struct.unpack_from('>I', b[off:off+4])[0]`. -/
def unpack_BEU32 (l : Bytes) (off : Nat) : Nat :=
  16777216 * l.getD off 0 + 65536 * l.getD (off + 1) 0 + 256 * l.getD (off + 2) 0 +
    l.getD (off + 3) 0

/-- Value of `struct.unpack_from('<I', b[off:off+4])[0]`. -/
def unpack_LEU32 (l : Bytes) (off : Nat) : Nat :=
  l.getD off 0 + 256 * l.getD (off + 1) 0 + 65536 * l.getD (off + 2) 0 +
    16777216 * l.getD (off + 3) 0

/-- Value of `struct.unpack_from('<H', b[off:off+2])[0]`. -/
def unpack_LEU16 (l : Bytes) (off : Nat) : Nat :=
  l.getD off 0 + 256 * l.getD (off + 1) 0

/-- The parsed header record of class `WavFileMetaData`: 13 unsigned fields. -/
structure WavFileMetaData where
  super_chunk_id : Nat
  super_chunk_size : Nat
  super_chunk_format : Nat
  format_chunk_id : Nat
  format_chunk_size : Nat
  format_chunk_audio_format : Nat
  format_chunk_num_channels : Nat
  format_chunk_sample_rate : Nat
  format_chunk_byte_rate : Nat
  format_chunk_block_align : Nat
  format_chunk_bits_per_sample : Nat
  data_chunk_id : Nat
  data_chunk_size : Nat
deriving DecidableEq, Repr

/-- Constant `WavFileMetaData.NUM_BYTES_BEFORE_DATA_STARTS`. -/
def NUM_BYTES_BEFORE_DATA_STARTS : Nat := 44

/-- Constant `SUPER_CHUNK_ID_EXPECTED` ("RIFF"). -/
def SUPER_CHUNK_ID_EXPECTED : Nat := 0x52494646

/-- Constant `SUPER_CHUNK_FORMAT_EXPECTED` ("WAVE"). -/
def SUPER_CHUNK_FORMAT_EXPECTED : Nat := 0x57415645

/-- Constant `FORMAT_CHUNK_ID_EXPECTED` ("fmt "). -/
def FORMAT_CHUNK_ID_EXPECTED : Nat := 0x666D7420

/-- Constant `FORMAT_CHUNK_SIZE_EXPECTED`. -/
def FORMAT_CHUNK_SIZE_EXPECTED : Nat := 16

/-- Constant `FORMAT_CHUNK_AUDIO_FORMAT_EXPECTED` (PCM). -/
def FORMAT_CHUNK_AUDIO_FORMAT_EXPECTED : Nat := 1

/-- Constant `FORMAT_CHUNK_NUM_CHANNELS_EXPECTED` (stereo). -/
def FORMAT_CHUNK_NUM_CHANNELS_EXPECTED : Nat := 2

/-- Constant `DATA_CHUNK_ID_EXPECTED` ("data"). -/
def DATA_CHUNK_ID_EXPECTED : Nat := 0x64617461

/-- Constant `WavFile.SAMPLES_PER_BLOCK`. -/
def SAMPLES_PER_BLOCK : Nat := 1000

/-- Method `WavFileMetaData.get_bytes`: packs the 13 fields in declaration order,
chunk ids and the WAVE magic big-endian, every numeric field little-endian. -/
def WavFileMetaData.get_bytes (m : WavFileMetaData) : Bytes :=
  pack_BEU32 m.super_chunk_id ++ pack_LEU32 m.super_chunk_size ++
  pack_BEU32 m.super_chunk_format ++ pack_BEU32 m.format_chunk_id ++
  pack_LEU32 m.format_chunk_size ++ pack_LEU16 m.format_chunk_audio_format ++
  pack_LEU16 m.format_chunk_num_channels ++ pack_LEU32 m.format_chunk_sample_rate ++
  pack_LEU32 m.format_chunk_byte_rate ++ pack_LEU16 m.format_chunk_block_align ++
  pack_LEU16 m.format_chunk_bits_per_sample ++ pack_BEU32 m.data_chunk_id ++
  pack_LEU32 m.data_chunk_size

/-- Method `WavFile._parse_meta_data`: reads the 13 fields at their fixed offsets
with the per-field endianness. -/
def parse_meta_data (b : Bytes) : WavFileMetaData where
  super_chunk_id := unpack_BEU32 b 0
  super_chunk_size := unpack_LEU32 b 4
  super_chunk_format := unpack_BEU32 b 8
  format_chunk_id := unpack_BEU32 b 12
  format_chunk_size := unpack_LEU32 b 16
  format_chunk_audio_format := unpack_LEU16 b 20
  format_chunk_num_channels := unpack_LEU16 b 22
  format_chunk_sample_rate := unpack_LEU32 b 24
  format_chunk_byte_rate := unpack_LEU32 b 28
  format_chunk_block_align := unpack_LEU16 b 32
  format_chunk_bits_per_sample := unpack_LEU16 b 34
  data_chunk_id := unpack_BEU32 b 36
  data_chunk_size := unpack_LEU32 b 40

/-- One entry of the `errors` list that `WavFile._validate_meta_data` accumulates.
The source renders each entry as a format string tagged with the field name and —
for all but the bits_per_sample check, whose message is a fixed sentence — the
actual and the expected value. -/
inductive FieldError where
  | superChunkId (actual expected : Nat)
  | superChunkFormat (actual expected : Nat)
  | formatChunkId (actual expected : Nat)
  | formatChunkSize (actual expected : Nat)
  | formatChunkAudioFormat (actual expected : Nat)
  | formatChunkNumChannels (actual expected : Nat)
  | dataChunkId (actual expected : Nat)
  | bitsPerSampleNotDivisibleBy8
deriving DecidableEq, Repr

/-- One `if` block of `WavFile._validate_meta_data` acting on the
`(success, errors)` state: when the check fires, set `success = False` and append
the error to the list; otherwise leave the state unchanged. -/
def validate_check (cond : Prop) [Decidable cond] (err : FieldError)
    (st : Bool × List FieldError) : Bool × List FieldError :=
  if cond then (false, st.2 ++ [err]) else st

/-- Method `WavFile._validate_meta_data`: starting from `success = True` and an
empty error list, run the eight checks in source order (innermost application
first), each appending one error when violated and clearing the success flag; no
check is skipped when an earlier one fails.  The source finally joins the list
into one message string (or `None` when the list is empty); the error list is
modelled structurally. -/
def validate_meta_data (m : WavFileMetaData) : Bool × List FieldError :=
  validate_check (m.format_chunk_bits_per_sample % 8 ≠ 0) .bitsPerSampleNotDivisibleBy8
    (validate_check (m.data_chunk_id ≠ DATA_CHUNK_ID_EXPECTED)
      (.dataChunkId m.data_chunk_id DATA_CHUNK_ID_EXPECTED)
      (validate_check (m.format_chunk_num_channels ≠ FORMAT_CHUNK_NUM_CHANNELS_EXPECTED)
        (.formatChunkNumChannels m.format_chunk_num_channels FORMAT_CHUNK_NUM_CHANNELS_EXPECTED)
        (validate_check (m.format_chunk_audio_format ≠ FORMAT_CHUNK_AUDIO_FORMAT_EXPECTED)
          (.formatChunkAudioFormat m.format_chunk_audio_format FORMAT_CHUNK_AUDIO_FORMAT_EXPECTED)
          (validate_check (m.format_chunk_size ≠ FORMAT_CHUNK_SIZE_EXPECTED)
            (.formatChunkSize m.format_chunk_size FORMAT_CHUNK_SIZE_EXPECTED)
            (validate_check (m.format_chunk_id ≠ FORMAT_CHUNK_ID_EXPECTED)
              (.formatChunkId m.format_chunk_id FORMAT_CHUNK_ID_EXPECTED)
              (validate_check (m.super_chunk_format ≠ SUPER_CHUNK_FORMAT_EXPECTED)
                (.superChunkFormat m.super_chunk_format SUPER_CHUNK_FORMAT_EXPECTED)
                (validate_check (m.super_chunk_id ≠ SUPER_CHUNK_ID_EXPECTED)
                  (.superChunkId m.super_chunk_id SUPER_CHUNK_ID_EXPECTED)
                  (true, []))))))))

/-- Method `WavFile._read_meta_data_from_disk` applied to the file contents: reads
the first 44 bytes, parses them, validates, and executes
`assert is_meta_data_valid, err_str`.  `Except.error` models the `AssertionError`
(carrying the joined error messages) that propagates when validation fails. -/
def read_meta_data_from_disk (fileBytes : Bytes) : Except (List FieldError) WavFileMetaData :=
  let meta_data_bytes := fileBytes.take NUM_BYTES_BEFORE_DATA_STARTS
  let meta_data := parse_meta_data meta_data_bytes
  let r := validate_meta_data meta_data
  if r.1 then .ok meta_data else .error r.2

/-- Classmethod `WavFile.open_existing` applied to the file contents: constructs
the object and calls `_read_meta_data_from_disk`. -/
def open_existing (fileBytes : Bytes) : Except (List FieldError) WavFileMetaData :=
  read_meta_data_from_disk fileBytes

/-- Method `WavFile._get_read_block_size`:
`SAMPLES_PER_BLOCK * num_channels * bits_per_sample // 8`. -/
def get_read_block_size (m : WavFileMetaData) : Nat :=
  SAMPLES_PER_BLOCK * m.format_chunk_num_channels * m.format_chunk_bits_per_sample / 8

/-- Method `WavFile._get_per_sample_struct_format_str_and_padding`, as a function
of `bytes_per_sample = bits_per_sample // 8`.  The `== 1` and `== 2` branches of
the source assign `'<c'` / `'<H'`, but the following `if bytes_per_sample <= 4:`
is a plain `if`, not an `elif`, so every width up to 4 ends up with
`('<I', bytearray(4 - bytes_per_sample))` — in particular width 4 gets an empty
padding.  The else branch (width above 4) returns `bytearray(8 - bytes_per_sample)`
for both components — no error is signalled there; `bytearray` of a negative count
raises `ValueError` for widths above 8. -/
def get_per_sample_struct_format_str_and_padding (bytes_per_sample : Nat) :
    Except PyErr (StructFmt × Nat) :=
  if bytes_per_sample ≤ 4 then .ok (.leU32, 4 - bytes_per_sample)
  else if bytes_per_sample ≤ 8 then
    .ok (.invalidBytes (8 - bytes_per_sample), 8 - bytes_per_sample)
  else .error .valueError

/-- The body of the per-sample for-loop of
`WavFile.create_new_wav_file_with_transformation`, iterated over the offset list
`range(0, len(data), bytes_per_sample)` (which is fixed before `data` starts being
resized).  Arguments after the colon: remaining offsets, the running
`channel_index`, and the mutable bytearray `data`.  Besides the final bytearray
(or the exception escaping the loop) the result carries the list of
`(channel_index, sample_value)` argument pairs passed to `trans_func`, in call
order — a record of the calls the loop makes, not extra computation. -/
def transform_samples (fmt : StructFmt) (padLen bytes_per_sample num_channels : Nat)
    (trans_func : Option (Nat → Nat → Nat)) :
    List Nat → Nat → Bytes → Except PyErr Bytes × List (Nat × Nat)
  | [], _, data => (.ok data, [])
  | sample_offset :: rest, channel_index, data =>
    match struct_unpack_from fmt
        (pySlice data sample_offset (sample_offset + bytes_per_sample) ++
          List.replicate padLen 0) with
    | .error e => (.error e, [])
    | .ok sample_value =>
      if num_channels = 0 then (.error .zeroDivisionError, [])
      else
        let ci := (channel_index + 1) % num_channels
        let v := match trans_func with
          | none => sample_value
          | some f => f ci sample_value
        let calls : List (Nat × Nat) := match trans_func with
          | none => []
          | some _ => [(ci, sample_value)]
        match struct_pack fmt v with
        | .error e => (.error e, calls)
        | .ok packed =>
          let data1 := pySliceAssign data sample_offset
            (sample_offset + bytes_per_sample) (pyDropLast packed padLen)
          let r := transform_samples fmt padLen bytes_per_sample num_channels
            trans_func rest ci data1
          (r.1, calls ++ r.2)

/-- One iteration of the while loop on the block just read: Python builds
`range(0, len(data), bytes_per_sample)` — `ValueError` when the step is 0 — and
runs the per-sample loop with `channel_index` starting at 0 (it is reset at the
top of every iteration of the while loop). -/
def transform_block (fmt : StructFmt) (padLen bytes_per_sample num_channels : Nat)
    (trans_func : Option (Nat → Nat → Nat)) (data : Bytes) :
    Except PyErr Bytes × List (Nat × Nat) :=
  if bytes_per_sample = 0 then (.error .valueError, [])
  else transform_samples fmt padLen bytes_per_sample num_channels trans_func
    (pyRange0 data.length bytes_per_sample) 0 data

/-- The while loop of `WavFile.create_new_wav_file_with_transformation`: read up
to `bytes_per_block` payload bytes, run the per-sample loop over them, write the
resulting block, and stop after the first short read.  `fuel` bounds the number of
iterations; `payload.length + 1` always suffices when `bytes_per_block > 0` (each
full read consumes `bytes_per_block` bytes), and running out of fuel models the
Python loop that never exits — reachable only when `bytes_per_block = 0` with a
nonzero sample width, which needs `num_channels = 0`. -/
def transform_stream_loop (fmt : StructFmt)
    (padLen bytes_per_sample num_channels bytes_per_block : Nat)
    (trans_func : Option (Nat → Nat → Nat)) : Nat → Bytes → Except PyErr Bytes
  | 0, _ => .error .nonTermination
  | fuel + 1, payload =>
    let data := payload.take bytes_per_block
    match (transform_block fmt padLen bytes_per_sample num_channels trans_func data).1 with
    | .error e => .error e
    | .ok out =>
      if payload.length < bytes_per_block then .ok out
      else
        match transform_stream_loop fmt padLen bytes_per_sample num_channels
            bytes_per_block trans_func fuel (payload.drop bytes_per_block) with
        | .error e => .error e
        | .ok rest => .ok (out ++ rest)

/-- Classmethod `WavFile.create_new_wav_file_with_transformation`, as the
destination file contents it produces.  `src_meta` is the parsed metadata of the
source object, `meta_data_bytes` its raw 44 header bytes (copied verbatim by
`_copy_meta_data` and written first by `write_meta_data_to_disk`), and `payload`
everything after byte 44 of the source file (the loop seeks there before
reading).  `Except.error` is an exception escaping mid-copy, in which case only
the partially written destination exists on disk. -/
def create_new_wav_file_with_transformation (src_meta : WavFileMetaData)
    (meta_data_bytes payload : Bytes) (trans_func : Option (Nat → Nat → Nat)) :
    Except PyErr Bytes :=
  let bytes_per_block := get_read_block_size src_meta
  let bytes_per_sample := src_meta.format_chunk_bits_per_sample / 8
  match get_per_sample_struct_format_str_and_padding bytes_per_sample with
  | .error e => .error e
  | .ok (fmt, padLen) =>
    match transform_stream_loop fmt padLen bytes_per_sample
        src_meta.format_chunk_num_channels bytes_per_block trans_func
        (payload.length + 1) payload with
    | .error e => .error e
    | .ok out => .ok (meta_data_bytes ++ out)

/-- Function `remove_left_channel` of `wav_file_util/__main__.py`. -/
def remove_left_channel (channel_index sample_value : Nat) : Nat :=
  if channel_index = 1 then 0 else sample_value

/-- Function `remove_right_channel` of `wav_file_util/__main__.py`. -/
def remove_right_channel (channel_index sample_value : Nat) : Nat :=
  if channel_index = 0 then 0 else sample_value

/-- Writing one sample value through the per-sample codec and reading it back:
select the format string and padding, `struct.pack` the value and drop the padding
bytes exactly as line 146 does (`[:-len(padding)]`), then decode the written bytes
as line 142 does (append the zero padding, `struct.unpack_from`). -/
def per_sample_round_trip (bytes_per_sample v : Nat) : Except PyErr Nat :=
  match get_per_sample_struct_format_str_and_padding bytes_per_sample with
  | .error e => .error e
  | .ok (fmt, padLen) =>
    match struct_pack fmt v with
    | .error e => .error e
    | .ok packed => struct_unpack_from fmt (pyDropLast packed padLen ++ List.replicate padLen 0)

/-- A concrete valid 44-byte header with `bits_per_sample = 32` (4 bytes per
sample): "RIFF", riff size 44, "WAVE", "fmt ", fmt size 16, PCM, 2 channels,
sample rate 44100, byte rate 352800, block align 8, 32 bits, "data", data size 8.
It passes `_validate_meta_data`. -/
def header32 : Bytes :=
  [0x52, 0x49, 0x46, 0x46, 44, 0, 0, 0, 0x57, 0x41, 0x56, 0x45,
   0x66, 0x6D, 0x74, 0x20, 16, 0, 0, 0, 1, 0, 2, 0,
   0x44, 0xAC, 0, 0, 0x20, 0x62, 0x05, 0, 8, 0, 32, 0,
   0x64, 0x61, 0x74, 0x61, 8, 0, 0, 0]

/-- A metadata record meeting every constraint `_validate_meta_data` checks, whose
`format_chunk_block_align` (999) nevertheless differs from
channels × bytes-per-sample (2 × 3 = 6) and whose `format_chunk_byte_rate` (7)
differs from sample rate × channels × bytes-per-sample. -/
def cexUncheckedFields : WavFileMetaData where
  super_chunk_id := 0x52494646
  super_chunk_size := 44
  super_chunk_format := 0x57415645
  format_chunk_id := 0x666D7420
  format_chunk_size := 16
  format_chunk_audio_format := 1
  format_chunk_num_channels := 2
  format_chunk_sample_rate := 44100
  format_chunk_byte_rate := 7
  format_chunk_block_align := 999
  format_chunk_bits_per_sample := 24
  data_chunk_id := 0x64617461
  data_chunk_size := 8

/-- A metadata record that is valid except for `format_chunk_num_channels = 1`. -/
def monoMetaData : WavFileMetaData where
  super_chunk_id := 0x52494646
  super_chunk_size := 44
  super_chunk_format := 0x57415645
  format_chunk_id := 0x666D7420
  format_chunk_size := 16
  format_chunk_audio_format := 1
  format_chunk_num_channels := 1
  format_chunk_sample_rate := 44100
  format_chunk_byte_rate := 264600
  format_chunk_block_align := 3
  format_chunk_bits_per_sample := 24
  data_chunk_id := 0x64617461
  data_chunk_size := 8

/-- Little-endian byte expansion at a given width, used to state what the codec
writes: byte `i` of the encoding of `v` is `v / 256^i % 256`. -/
def spec_le_bytes (width v : Nat) : Bytes :=
  (List.range width).map fun i => v / 256 ^ i % 256

/-- Little-endian value of a byte list, used to state what the codec decodes. -/
def spec_le_val : Bytes → Nat
  | [] => 0
  | b :: rest => b + 256 * spec_le_val rest

/-- What the transform loop does to `n` consecutive sample slots of width
`bps`, stated at the specification level: slot by slot, decode the slot
little-endian, pass the incremented channel counter and the value to `f`, and
write back the low `bps` little-endian bytes of the result. -/
def slotMapN (bps nch : Nat) (f : Nat → Nat → Nat) : Nat → Nat → Bytes → Bytes
  | 0, _, _ => []
  | n + 1, ch, rest =>
      spec_le_bytes bps (f ((ch + 1) % nch) (spec_le_val (rest.take bps))) ++
        slotMapN bps nch f n ((ch + 1) % nch) (rest.drop bps)

/-- C1: the codec round-trips every in-range value at widths 1, 2 and 3 — shown
here at the boundary values 0 and `2^bits_per_sample - 1` — but at width 4 the
claim fails: the padding list is empty, so the `[:-len(padding)]` truncation of
line 146 keeps zero bytes instead of all four, and re-reading the written bytes
raises struct.error instead of returning the value.  The claim is right about the
intended behaviour (the codec comments support widths up to 4) and the code's
`[:-0]` slice is the slip. -/
theorem c1_sample_width_round_trip_bug :
    per_sample_round_trip 1 0 = .ok 0 ∧ per_sample_round_trip 1 255 = .ok 255 ∧
    per_sample_round_trip 2 0 = .ok 0 ∧ per_sample_round_trip 2 65535 = .ok 65535 ∧
    per_sample_round_trip 3 0 = .ok 0 ∧ per_sample_round_trip 3 16777215 = .ok 16777215 ∧
    per_sample_round_trip 4 0 = .error .structError ∧
    per_sample_round_trip 4 4294967295 = .error .structError :=
  ⟨rfl, rfl, rfl, rfl, rfl, rfl, rfl, rfl⟩

/-- C2: evaluating the identity copy (`trans_func = None`) on a source file with a
valid header declaring 32 bits per sample and a payload of one 4-byte sample slot:
the re-encode of line 146 replaces the 4 sample bytes with the empty slice
`pack(...)[:-0]`, so the destination is the 44 header bytes alone — not
byte-identical to the 48-byte source the claim (and the function's own docstring,
"an exact copy") promises. -/
theorem c2_identity_copy_drops_32_bit_payload :
    (validate_meta_data (parse_meta_data header32)).1 = true ∧
    header32.length = 44 ∧
    create_new_wav_file_with_transformation (parse_meta_data header32) header32
      [1, 2, 3, 4] none = .ok header32 ∧
    header32 ++ [1, 2, 3, 4] ≠ header32 :=
  ⟨rfl, rfl, rfl, by decide⟩

/-- C4: evaluating the silence-channel-1 transform on a source file with a valid
header declaring 32 bits per sample and two 4-byte sample slots: processing the
first slot shrinks the bytearray by 4 bytes (the empty `[:-0]` re-encode), so the
read at the second slot's offset falls off the end and `struct.unpack_from`
raises struct.error — no output with silenced channel-1 slots exists, contrary to
the claim, which is right about the intended behaviour. -/
theorem c4_channel_silence_crashes_on_32_bit_samples :
    (validate_meta_data (parse_meta_data header32)).1 = true ∧
    create_new_wav_file_with_transformation (parse_meta_data header32) header32
      [1, 0, 0, 0, 2, 0, 0, 0] (some remove_left_channel) = .error .structError :=
  ⟨rfl, rfl⟩

/-- C6 counterexample: a header whose `block_align` differs from
channels × bytes-per-sample and whose `byte_rate` differs from
sample rate × channels × bytes-per-sample — two violations of the expected-value
table the claim says are checked — yet `_validate_meta_data` reports success with
zero errors: it never checks `byte_rate` or `block_align`. -/
theorem c6_unchecked_fields_counterexample :
    cexUncheckedFields.format_chunk_block_align ≠
      cexUncheckedFields.format_chunk_num_channels *
        (cexUncheckedFields.format_chunk_bits_per_sample / 8) ∧
    cexUncheckedFields.format_chunk_byte_rate ≠
      cexUncheckedFields.format_chunk_sample_rate *
        cexUncheckedFields.format_chunk_num_channels *
        (cexUncheckedFields.format_chunk_bits_per_sample / 8) ∧
    validate_meta_data cexUncheckedFields = (true, []) :=
  ⟨by decide, by decide, rfl⟩

/-- C7: a header satisfying every checked constraint except
`num_channels`, which is 1, fails validation with exactly the single error tagged
`num_channels | actual = 1 expected = 2`. -/
theorem c7_mono_single_error (m : WavFileMetaData)
    (h1 : m.super_chunk_id = SUPER_CHUNK_ID_EXPECTED)
    (h2 : m.super_chunk_format = SUPER_CHUNK_FORMAT_EXPECTED)
    (h3 : m.format_chunk_id = FORMAT_CHUNK_ID_EXPECTED)
    (h4 : m.format_chunk_size = FORMAT_CHUNK_SIZE_EXPECTED)
    (h5 : m.format_chunk_audio_format = FORMAT_CHUNK_AUDIO_FORMAT_EXPECTED)
    (h6 : m.data_chunk_id = DATA_CHUNK_ID_EXPECTED)
    (h7 : m.format_chunk_bits_per_sample % 8 = 0)
    (h8 : m.format_chunk_num_channels = 1) :
    validate_meta_data m = (false, [.formatChunkNumChannels 1 2]) := by
  simp [validate_meta_data, validate_check, h1, h2, h3, h4, h5, h6, h7, h8,
    SUPER_CHUNK_ID_EXPECTED, SUPER_CHUNK_FORMAT_EXPECTED, FORMAT_CHUNK_ID_EXPECTED,
    FORMAT_CHUNK_SIZE_EXPECTED, FORMAT_CHUNK_AUDIO_FORMAT_EXPECTED,
    FORMAT_CHUNK_NUM_CHANNELS_EXPECTED, DATA_CHUNK_ID_EXPECTED]

/-- Witness for C7 at the concrete mono header `monoMetaData`. -/
theorem c7_mono_single_error_witness :
    validate_meta_data monoMetaData = (false, [.formatChunkNumChannels 1 2]) :=
  c7_mono_single_error monoMetaData rfl rfl rfl rfl rfl rfl rfl rfl

/-- C8 counterexample: on a 44-byte header failing validation (here all zeros),
`open_existing` does not return the violations as a result value — the `assert` in
`_read_meta_data_from_disk` raises an `AssertionError` (modelled by
`Except.error`) carrying the violation list, which propagates to the caller as an
exception. -/
theorem c8_open_existing_raises_on_invalid_header :
    open_existing (List.replicate 44 0) = .error
      [.superChunkId 0 0x52494646, .superChunkFormat 0 0x57415645,
       .formatChunkId 0 0x666D7420, .formatChunkSize 0 16,
       .formatChunkAudioFormat 0 1, .formatChunkNumChannels 0 2,
       .dataChunkId 0 0x64617461] := rfl

/-- C9 counterexample: for a sample width of 5 bytes the codec does not fail fast
with a structured UnsupportedSampleWidth error — no such error exists anywhere in
the code: `_get_per_sample_struct_format_str_and_padding` returns normally,
handing back `bytearray(3)` in place of a format string, and the failure only
surfaces as a `TypeError` when that object is later passed to `struct` while
decoding or re-encoding a sample. -/
theorem c9_no_unsupported_width_error :
    get_per_sample_struct_format_str_and_padding 5 = .ok (.invalidBytes 3, 3) ∧
    struct_unpack_from (.invalidBytes 3) [0, 0, 0, 0, 0] = .error .typeError ∧
    struct_pack (.invalidBytes 3) 0 = .error .typeError :=
  ⟨rfl, rfl, rfl⟩

/-- Evaluation of `_parse_meta_data` on an explicit 44-byte list. -/
theorem parse_meta_data_eval (b0 b1 b2 b3 b4 b5 b6 b7 b8 b9 b10 b11 b12 b13 b14
    b15 b16 b17 b18 b19 b20 b21 b22 b23 b24 b25 b26 b27 b28 b29 b30 b31 b32 b33
    b34 b35 b36 b37 b38 b39 b40 b41 b42 b43 : Nat) :
    parse_meta_data [b0, b1, b2, b3, b4, b5, b6, b7, b8, b9, b10, b11, b12, b13,
      b14, b15, b16, b17, b18, b19, b20, b21, b22, b23, b24, b25, b26, b27, b28,
      b29, b30, b31, b32, b33, b34, b35, b36, b37, b38, b39, b40, b41, b42, b43] =
      ⟨16777216 * b0 + 65536 * b1 + 256 * b2 + b3,
       b4 + 256 * b5 + 65536 * b6 + 16777216 * b7,
       16777216 * b8 + 65536 * b9 + 256 * b10 + b11,
       16777216 * b12 + 65536 * b13 + 256 * b14 + b15,
       b16 + 256 * b17 + 65536 * b18 + 16777216 * b19,
       b20 + 256 * b21,
       b22 + 256 * b23,
       b24 + 256 * b25 + 65536 * b26 + 16777216 * b27,
       b28 + 256 * b29 + 65536 * b30 + 16777216 * b31,
       b32 + 256 * b33,
       b34 + 256 * b35,
       16777216 * b36 + 65536 * b37 + 256 * b38 + b39,
       b40 + 256 * b41 + 65536 * b42 + 16777216 * b43⟩ := rfl

/-- C3: `_parse_meta_data` applied to `get_bytes` of any header whose 32-bit
fields are below `2^32` and whose 16-bit fields are below `2^16` recovers the
header field-for-field: each field is re-read at its fixed offset with the
endianness it was written with. -/
theorem c3_decode_encode_round_trip (x1 x2 x3 x4 x5 x6 x7 x8 x9 x10 x11 x12 x13 : Nat)
    (b1 : x1 < 4294967296) (b2 : x2 < 4294967296) (b3 : x3 < 4294967296)
    (b4 : x4 < 4294967296) (b5 : x5 < 4294967296) (b6 : x6 < 65536)
    (b7 : x7 < 65536) (b8 : x8 < 4294967296) (b9 : x9 < 4294967296)
    (b10 : x10 < 65536) (b11 : x11 < 65536) (b12 : x12 < 4294967296)
    (b13 : x13 < 4294967296) :
    parse_meta_data (WavFileMetaData.get_bytes
        ⟨x1, x2, x3, x4, x5, x6, x7, x8, x9, x10, x11, x12, x13⟩) =
      ⟨x1, x2, x3, x4, x5, x6, x7, x8, x9, x10, x11, x12, x13⟩ := by
  have hb : WavFileMetaData.get_bytes
      ⟨x1, x2, x3, x4, x5, x6, x7, x8, x9, x10, x11, x12, x13⟩ =
      [x1 / 16777216 % 256, x1 / 65536 % 256, x1 / 256 % 256, x1 % 256,
       x2 % 256, x2 / 256 % 256, x2 / 65536 % 256, x2 / 16777216 % 256,
       x3 / 16777216 % 256, x3 / 65536 % 256, x3 / 256 % 256, x3 % 256,
       x4 / 16777216 % 256, x4 / 65536 % 256, x4 / 256 % 256, x4 % 256,
       x5 % 256, x5 / 256 % 256, x5 / 65536 % 256, x5 / 16777216 % 256,
       x6 % 256, x6 / 256 % 256,
       x7 % 256, x7 / 256 % 256,
       x8 % 256, x8 / 256 % 256, x8 / 65536 % 256, x8 / 16777216 % 256,
       x9 % 256, x9 / 256 % 256, x9 / 65536 % 256, x9 / 16777216 % 256,
       x10 % 256, x10 / 256 % 256,
       x11 % 256, x11 / 256 % 256,
       x12 / 16777216 % 256, x12 / 65536 % 256, x12 / 256 % 256, x12 % 256,
       x13 % 256, x13 / 256 % 256, x13 / 65536 % 256, x13 / 16777216 % 256] := rfl
  rw [hb, parse_meta_data_eval]
  simp only [WavFileMetaData.mk.injEq]
  refine ⟨?_, ?_, ?_, ?_, ?_, ?_, ?_, ?_, ?_, ?_, ?_, ?_, ?_⟩ <;> omega

/-- Witness for C3 at a concrete in-range header. -/
theorem c3_decode_encode_round_trip_witness :
    parse_meta_data (WavFileMetaData.get_bytes
        ⟨0x52494646, 44, 0x57415645, 0x666D7420, 16, 1, 2, 44100, 264600, 6, 24,
         0x64617461, 8⟩) =
      ⟨0x52494646, 44, 0x57415645, 0x666D7420, 16, 1, 2, 44100, 264600, 6, 24,
       0x64617461, 8⟩ :=
  c3_decode_encode_round_trip 0x52494646 44 0x57415645 0x666D7420 16 1 2 44100
    264600 6 24 0x64617461 8 (by decide) (by decide) (by decide) (by decide)
    (by decide) (by decide) (by decide) (by decide) (by decide) (by decide)
    (by decide) (by decide) (by decide)


/-- The channel index recorded for the j-th transform call, starting the counter
at `ch`, is `(ch + j + 1) mod num_channels`: the counter increments before it is
used. -/
theorem transform_samples_call_channels (fmt : StructFmt) (padLen bps nch : Nat)
    (f : Nat → Nat → Nat) (offs : List Nat) (ch : Nat) (data : Bytes) (i : Nat)
    (h : i < ((transform_samples fmt padLen bps nch (some f) offs ch data).2).length) :
    (((transform_samples fmt padLen bps nch (some f) offs ch data).2).getD i (0, 0)).1 =
      (ch + i + 1) % nch := by
  induction offs generalizing ch data i with
  | nil => simp [transform_samples] at h
  | cons off rest ih =>
    simp only [transform_samples] at h ⊢
    cases hu : struct_unpack_from fmt
        (pySlice data off (off + bps) ++ List.replicate padLen 0) with
    | error e => simp [hu] at h
    | ok v =>
      rw [hu] at h
      dsimp only at h ⊢
      by_cases hn : nch = 0
      · simp [hn] at h
      · rw [if_neg hn] at h ⊢
        cases hp : struct_pack fmt (f ((ch + 1) % nch) v) with
        | error e =>
          rw [hp] at h
          dsimp only at h ⊢
          simp only [List.length_cons, List.length_nil] at h
          have hi : i = 0 := by omega
          subst hi
          simp
        | ok packed =>
          rw [hp] at h
          dsimp only at h ⊢
          cases i with
          | zero => simp
          | succ j =>
            simp only [List.singleton_append, List.length_cons] at h
            have hj : j < ((transform_samples fmt padLen bps nch (some f) rest
                ((ch + 1) % nch)
                (pySliceAssign data off (off + bps) (pyDropLast packed padLen))).2).length := by
              omega
            have hrec := ih ((ch + 1) % nch)
              (pySliceAssign data off (off + bps) (pyDropLast packed padLen)) j hj
            simp only [List.singleton_append, List.getD_cons_succ]
            rw [hrec]
            rw [Nat.add_assoc ((ch + 1) % nch) j 1, Nat.mod_add_mod]
            congr 1
            omega

/-- C5: with a transform function supplied, the channel index passed to it for
the i-th sample slot of a block (0-based, in file order) is
`(i + 1) mod num_channels`: the counter starts at 0 each block and is incremented
before its first use, so the first slot is reported as channel `1 mod
num_channels`, not 0. -/
theorem c5_channel_index_off_by_one (fmt : StructFmt) (padLen bps nch : Nat)
    (f : Nat → Nat → Nat) (data : Bytes) (i : Nat)
    (h : i < ((transform_block fmt padLen bps nch (some f) data).2).length) :
    (((transform_block fmt padLen bps nch (some f) data).2).getD i (0, 0)).1 =
      (i + 1) % nch := by
  unfold transform_block at h ⊢
  by_cases hz : bps = 0
  · simp [hz] at h
  · rw [if_neg hz] at h ⊢
    have := transform_samples_call_channels fmt padLen bps nch f
      (pyRange0 data.length bps) 0 data i h
    simpa using this

/-- Witness for C5: the first slot of a concrete 16-bit stereo block is reported
as channel `(0 + 1) % 2 = 1`. -/
theorem c5_channel_index_off_by_one_witness :
    (((transform_block .leU32 2 2 2 (some remove_left_channel) [5, 0, 7, 0]).2).getD
      0 (0, 0)).1 = (0 + 1) % 2 :=
  c5_channel_index_off_by_one .leU32 2 2 2 remove_left_channel [5, 0, 7, 0] 0
    (by decide)

/-- One validator check appends exactly one error when violated, none otherwise. -/
theorem validate_check_length (cond : Prop) [Decidable cond] (err : FieldError)
    (st : Bool × List FieldError) :
    ((validate_check cond err st).2).length =
      (st.2).length + (if cond then 1 else 0) := by
  unfold validate_check
  split <;> simp

/-- Membership in the error list after one validator check. -/
theorem validate_check_mem (x : FieldError) (cond : Prop) [Decidable cond]
    (err : FieldError) (st : Bool × List FieldError) :
    x ∈ (validate_check cond err st).2 ↔ x ∈ st.2 ∨ (cond ∧ x = err) := by
  unfold validate_check
  split <;> simp_all

/-- The error list stays empty through one check exactly when it was empty and
the check does not fire. -/
theorem validate_check_nil (cond : Prop) [Decidable cond] (err : FieldError)
    (st : Bool × List FieldError) :
    (validate_check cond err st).2 = [] ↔ st.2 = [] ∧ ¬cond := by
  unfold validate_check
  split <;> simp_all

/-- The success flag after one validator check. -/
theorem validate_check_flag (cond : Prop) [Decidable cond] (err : FieldError)
    (st : Bool × List FieldError) :
    (validate_check cond err st).1 = if cond then false else st.1 := by
  unfold validate_check
  split <;> simp

/-- The success flag returned by `_validate_meta_data` is true exactly when the
error list is empty. -/
theorem validate_flag_iff (m : WavFileMetaData) :
    (validate_meta_data m).1 = true ↔ (validate_meta_data m).2 = [] := by
  simp only [validate_meta_data, validate_check_flag, validate_check_nil]
  split_ifs <;> simp_all

/-- C6 amended: `_validate_meta_data` runs exactly eight checks — riff id, wave
format, fmt id, fmt size, audio format, num channels, data id, and
bits_per_sample divisibility by 8 — independently, without short-circuiting,
producing exactly one error per violated field, each carrying the field's tag
(with actual and expected values where the source formats them); the result is
entirely independent of `byte_rate` and `block_align`, which are never checked;
and the success flag is true exactly when no error was produced. -/
theorem c6_validator_checks_eight_fields (m : WavFileMetaData) :
    ((validate_meta_data m).2).length =
        (if m.super_chunk_id ≠ SUPER_CHUNK_ID_EXPECTED then 1 else 0) +
        (if m.super_chunk_format ≠ SUPER_CHUNK_FORMAT_EXPECTED then 1 else 0) +
        (if m.format_chunk_id ≠ FORMAT_CHUNK_ID_EXPECTED then 1 else 0) +
        (if m.format_chunk_size ≠ FORMAT_CHUNK_SIZE_EXPECTED then 1 else 0) +
        (if m.format_chunk_audio_format ≠ FORMAT_CHUNK_AUDIO_FORMAT_EXPECTED then 1 else 0) +
        (if m.format_chunk_num_channels ≠ FORMAT_CHUNK_NUM_CHANNELS_EXPECTED then 1 else 0) +
        (if m.data_chunk_id ≠ DATA_CHUNK_ID_EXPECTED then 1 else 0) +
        (if m.format_chunk_bits_per_sample % 8 ≠ 0 then 1 else 0) ∧
    ((FieldError.superChunkId m.super_chunk_id SUPER_CHUNK_ID_EXPECTED ∈
        (validate_meta_data m).2) ↔ m.super_chunk_id ≠ SUPER_CHUNK_ID_EXPECTED) ∧
    ((FieldError.superChunkFormat m.super_chunk_format SUPER_CHUNK_FORMAT_EXPECTED ∈
        (validate_meta_data m).2) ↔
      m.super_chunk_format ≠ SUPER_CHUNK_FORMAT_EXPECTED) ∧
    ((FieldError.formatChunkId m.format_chunk_id FORMAT_CHUNK_ID_EXPECTED ∈
        (validate_meta_data m).2) ↔ m.format_chunk_id ≠ FORMAT_CHUNK_ID_EXPECTED) ∧
    ((FieldError.formatChunkSize m.format_chunk_size FORMAT_CHUNK_SIZE_EXPECTED ∈
        (validate_meta_data m).2) ↔
      m.format_chunk_size ≠ FORMAT_CHUNK_SIZE_EXPECTED) ∧
    ((FieldError.formatChunkAudioFormat m.format_chunk_audio_format
        FORMAT_CHUNK_AUDIO_FORMAT_EXPECTED ∈ (validate_meta_data m).2) ↔
      m.format_chunk_audio_format ≠ FORMAT_CHUNK_AUDIO_FORMAT_EXPECTED) ∧
    ((FieldError.formatChunkNumChannels m.format_chunk_num_channels
        FORMAT_CHUNK_NUM_CHANNELS_EXPECTED ∈ (validate_meta_data m).2) ↔
      m.format_chunk_num_channels ≠ FORMAT_CHUNK_NUM_CHANNELS_EXPECTED) ∧
    ((FieldError.dataChunkId m.data_chunk_id DATA_CHUNK_ID_EXPECTED ∈
        (validate_meta_data m).2) ↔ m.data_chunk_id ≠ DATA_CHUNK_ID_EXPECTED) ∧
    ((FieldError.bitsPerSampleNotDivisibleBy8 ∈ (validate_meta_data m).2) ↔
      m.format_chunk_bits_per_sample % 8 ≠ 0) ∧
    (∀ br ba, validate_meta_data
        {m with format_chunk_byte_rate := br, format_chunk_block_align := ba} =
      validate_meta_data m) ∧
    ((validate_meta_data m).1 = true ↔ (validate_meta_data m).2 = []) := by
  refine ⟨?_, ?_, ?_, ?_, ?_, ?_, ?_, ?_, ?_, ?_, validate_flag_iff m⟩
  · simp only [validate_meta_data, validate_check_length, List.length_nil]
    omega
  · simp only [validate_meta_data, validate_check_mem, List.not_mem_nil]
    simp
  · simp only [validate_meta_data, validate_check_mem, List.not_mem_nil]
    simp
  · simp only [validate_meta_data, validate_check_mem, List.not_mem_nil]
    simp
  · simp only [validate_meta_data, validate_check_mem, List.not_mem_nil]
    simp
  · simp only [validate_meta_data, validate_check_mem, List.not_mem_nil]
    simp
  · simp only [validate_meta_data, validate_check_mem, List.not_mem_nil]
    simp
  · simp only [validate_meta_data, validate_check_mem, List.not_mem_nil]
    simp
  · simp only [validate_meta_data, validate_check_mem, List.not_mem_nil]
    simp
  · intro br ba
    rfl


/-- `struct.pack` never raises an AssertionError. -/
theorem struct_pack_not_assert (fmt : StructFmt) (v : Nat) :
    struct_pack fmt v ≠ .error .assertionError := by
  cases fmt with
  | leU32 => simp only [struct_pack]; split <;> simp
  | invalidBytes n => simp [struct_pack]

/-- `struct.unpack_from` never raises an AssertionError. -/
theorem struct_unpack_not_assert (fmt : StructFmt) (l : Bytes) :
    struct_unpack_from fmt l ≠ .error .assertionError := by
  unfold struct_unpack_from
  split <;> simp

/-- The per-sample loop never raises an AssertionError: its only failure modes
are struct.error, TypeError and ZeroDivisionError. -/
theorem transform_samples_not_assert (fmt : StructFmt)
    (padLen bps nch : Nat) (trans : Option (Nat → Nat → Nat)) (offs : List Nat)
    (ch : Nat) (data : Bytes) :
    (transform_samples fmt padLen bps nch trans offs ch data).1 ≠
      .error .assertionError := by
  cases trans with
  | none =>
    induction offs generalizing ch data with
    | nil => simp [transform_samples]
    | cons off rest ih =>
      simp only [transform_samples]
      cases hu : struct_unpack_from fmt
          (pySlice data off (off + bps) ++ List.replicate padLen 0) with
      | error e =>
        have := struct_unpack_not_assert fmt
          (pySlice data off (off + bps) ++ List.replicate padLen 0)
        rw [hu] at this
        simpa using this
      | ok v =>
        dsimp only
        by_cases hn : nch = 0
        · simp [hn]
        · rw [if_neg hn]
          cases hp : struct_pack fmt v with
          | error e =>
            have := struct_pack_not_assert fmt v
            rw [hp] at this
            simpa using this
          | ok packed =>
            simpa using ih ((ch + 1) % nch)
              (pySliceAssign data off (off + bps) (pyDropLast packed padLen))
  | some f =>
    induction offs generalizing ch data with
    | nil => simp [transform_samples]
    | cons off rest ih =>
      simp only [transform_samples]
      cases hu : struct_unpack_from fmt
          (pySlice data off (off + bps) ++ List.replicate padLen 0) with
      | error e =>
        have := struct_unpack_not_assert fmt
          (pySlice data off (off + bps) ++ List.replicate padLen 0)
        rw [hu] at this
        simpa using this
      | ok v =>
        dsimp only
        by_cases hn : nch = 0
        · simp [hn]
        · rw [if_neg hn]
          cases hp : struct_pack fmt (f ((ch + 1) % nch) v) with
          | error e =>
            have := struct_pack_not_assert fmt (f ((ch + 1) % nch) v)
            rw [hp] at this
            simpa using this
          | ok packed =>
            simpa using ih ((ch + 1) % nch)
              (pySliceAssign data off (off + bps) (pyDropLast packed padLen))

/-- One while-loop block never raises an AssertionError. -/
theorem transform_block_not_assert (fmt : StructFmt) (padLen bps nch : Nat)
    (trans : Option (Nat → Nat → Nat)) (data : Bytes) :
    (transform_block fmt padLen bps nch trans data).1 ≠ .error .assertionError := by
  unfold transform_block
  split
  · simp
  · exact transform_samples_not_assert fmt padLen bps nch trans
      (pyRange0 data.length bps) 0 data

/-- The streaming while loop never raises an AssertionError. -/
theorem transform_stream_loop_not_assert (fmt : StructFmt)
    (padLen bps nch bpb : Nat) (trans : Option (Nat → Nat → Nat)) (fuel : Nat)
    (payload : Bytes) :
    transform_stream_loop fmt padLen bps nch bpb trans fuel payload ≠
      .error .assertionError := by
  induction fuel generalizing payload with
  | zero => simp [transform_stream_loop]
  | succ n ih =>
    simp only [transform_stream_loop]
    cases hb : (transform_block fmt padLen bps nch trans (payload.take bpb)).1 with
    | error e =>
      dsimp only
      have := transform_block_not_assert fmt padLen bps nch trans (payload.take bpb)
      rw [hb] at this
      simpa using this
    | ok out =>
      dsimp only
      split
      · simp
      · cases hs : transform_stream_loop fmt padLen bps nch bpb trans n
            (payload.drop bpb) with
        | error e =>
          dsimp only
          have := ih (payload.drop bpb)
          rw [hs] at this
          simpa using this
        | ok rest => simp

/-- C8 amended: when the 44-byte header fails validation, `open_existing` raises
an AssertionError carrying the full violation list (it does not return the
violations as a value), and the list it carries is never empty; and after a
header has been accepted, the streaming transform never raises a validation or
assertion error — its failure modes are struct/type/value/zero-division errors
only. -/
theorem c8_assertion_on_failure_and_no_validation_in_stream :
    (∀ fileBytes : Bytes,
      (validate_meta_data (parse_meta_data
          (fileBytes.take NUM_BYTES_BEFORE_DATA_STARTS))).1 = false →
        open_existing fileBytes = .error
          (validate_meta_data (parse_meta_data
            (fileBytes.take NUM_BYTES_BEFORE_DATA_STARTS))).2 ∧
        (validate_meta_data (parse_meta_data
          (fileBytes.take NUM_BYTES_BEFORE_DATA_STARTS))).2 ≠ []) ∧
    (∀ (fmt : StructFmt) (padLen bps nch bpb : Nat)
        (trans : Option (Nat → Nat → Nat)) (fuel : Nat) (payload : Bytes),
      transform_stream_loop fmt padLen bps nch bpb trans fuel payload ≠
        .error .assertionError) := by
  constructor
  · intro fileBytes hval
    constructor
    · simp [open_existing, read_meta_data_from_disk, hval]
    · intro hnil
      have hflag := (validate_flag_iff (parse_meta_data
        (fileBytes.take NUM_BYTES_BEFORE_DATA_STARTS))).2 hnil
      rw [hval] at hflag
      simp at hflag
  · intro fmt padLen bps nch bpb trans fuel payload
    exact transform_stream_loop_not_assert fmt padLen bps nch bpb trans fuel payload

/-- Witness for C8 at the all-zero header. -/
theorem c8_assertion_on_failure_witness :
    open_existing (List.replicate 44 0) = .error
      (validate_meta_data (parse_meta_data
        ((List.replicate 44 0).take NUM_BYTES_BEFORE_DATA_STARTS))).2 ∧
    (validate_meta_data (parse_meta_data
      ((List.replicate 44 0).take NUM_BYTES_BEFORE_DATA_STARTS))).2 ≠ [] :=
  c8_assertion_on_failure_and_no_validation_in_stream.1 (List.replicate 44 0)
    (by decide)

/-- C9 amended: for every width above 4 bytes the codec signals no structured
error at selection time: for widths 5 to 8 the selector returns normally with
`bytearray(8 - width)` in place of the format string (and as the padding), and
every later decode or re-encode through that object raises a TypeError; for
widths above 8 the selector itself raises a ValueError from the negative
bytearray count.  No UnsupportedSampleWidth error exists. -/
theorem c9_width_above_4_behaviour (bps : Nat) (h : 4 < bps) :
    (bps ≤ 8 →
      get_per_sample_struct_format_str_and_padding bps =
        .ok (.invalidBytes (8 - bps), 8 - bps) ∧
      (∀ l : Bytes, struct_unpack_from (.invalidBytes (8 - bps)) l =
        .error .typeError) ∧
      (∀ v : Nat, struct_pack (.invalidBytes (8 - bps)) v = .error .typeError)) ∧
    (8 < bps → get_per_sample_struct_format_str_and_padding bps =
      .error .valueError) := by
  constructor
  · intro h8
    refine ⟨?_, fun l => rfl, fun v => rfl⟩
    unfold get_per_sample_struct_format_str_and_padding
    rw [if_neg (by omega), if_pos h8]
  · intro h8
    unfold get_per_sample_struct_format_str_and_padding
    rw [if_neg (by omega), if_neg (by omega)]

/-- Witness for C9 at width 5. -/
theorem c9_width_above_4_behaviour_witness :
    get_per_sample_struct_format_str_and_padding 5 =
      .ok (.invalidBytes (8 - 5), 8 - 5) ∧
    (∀ l : Bytes, struct_unpack_from (.invalidBytes (8 - 5)) l =
      .error .typeError) ∧
    (∀ v : Nat, struct_pack (.invalidBytes (8 - 5)) v = .error .typeError) :=
  (c9_width_above_4_behaviour 5 (by decide)).1 (by decide)


/-- Length of the little-endian byte expansion. -/
theorem spec_le_bytes_length (w v : Nat) : (spec_le_bytes w v).length = w := by
  simp [spec_le_bytes]

/-- Decoding one sample slot at widths 1 to 3: unpacking the slot bytes padded
with `4 - width` zero bytes yields the slot's little-endian value. -/
theorem unpack_slot (bps : Nat) (hbps : bps = 1 ∨ bps = 2 ∨ bps = 3) (c : Bytes)
    (hc : c.length = bps) :
    struct_unpack_from .leU32 (c ++ List.replicate (4 - bps) 0) =
      .ok (spec_le_val c) := by
  rcases hbps with h | h | h <;> subst h
  · rcases c with _ | ⟨b0, _ | ⟨b1, t⟩⟩
    · simp at hc
    · have e1 : struct_unpack_from .leU32 ([b0] ++ List.replicate (4 - 1) 0) =
          .ok (b0 + 256 * 0 + 65536 * 0 + 16777216 * 0) := rfl
      have e2 : spec_le_val [b0] = b0 + 256 * 0 := rfl
      rw [e1, e2]
    · simp at hc
  · rcases c with _ | ⟨b0, _ | ⟨b1, _ | ⟨b2, t⟩⟩⟩
    · simp at hc
    · simp at hc
    · have e1 : struct_unpack_from .leU32 ([b0, b1] ++ List.replicate (4 - 2) 0) =
          .ok (b0 + 256 * b1 + 65536 * 0 + 16777216 * 0) := rfl
      have e2 : spec_le_val [b0, b1] = b0 + 256 * (b1 + 256 * 0) := rfl
      rw [e1, e2]
      norm_num
    · simp at hc
  · rcases c with _ | ⟨b0, _ | ⟨b1, _ | ⟨b2, _ | ⟨b3, t⟩⟩⟩⟩
    · simp at hc
    · simp at hc
    · simp at hc
    · have e1 : struct_unpack_from .leU32 ([b0, b1, b2] ++ List.replicate (4 - 3) 0) =
          .ok (b0 + 256 * b1 + 65536 * b2 + 16777216 * 0) := rfl
      have e2 : spec_le_val [b0, b1, b2] =
          b0 + 256 * (b1 + 256 * (b2 + 256 * 0)) := rfl
      rw [e1, e2]
      ring_nf
    · simp at hc

/-- Re-encoding one sample slot at widths 1 to 3: packing through `'<I'` and
dropping the `4 - width` padding bytes leaves the low `width` little-endian
bytes of the value. -/
theorem pack_slot (bps : Nat) (hbps : bps = 1 ∨ bps = 2 ∨ bps = 3) (v : Nat) :
    pyDropLast (pack_LEU32 v) (4 - bps) = spec_le_bytes bps v := by
  rcases hbps with h | h | h <;> subst h
  · have e1 : pyDropLast (pack_LEU32 v) (4 - 1) = [v % 256] := rfl
    have e2 : spec_le_bytes 1 v = [v / 256 ^ 0 % 256] := rfl
    rw [e1, e2]
    norm_num
  · have e1 : pyDropLast (pack_LEU32 v) (4 - 2) = [v % 256, v / 256 % 256] := rfl
    have e2 : spec_le_bytes 2 v = [v / 256 ^ 0 % 256, v / 256 ^ 1 % 256] := rfl
    rw [e1, e2]
    norm_num
  · have e1 : pyDropLast (pack_LEU32 v) (4 - 3) =
        [v % 256, v / 256 % 256, v / 65536 % 256] := rfl
    have e2 : spec_le_bytes 3 v =
        [v / 256 ^ 0 % 256, v / 256 ^ 1 % 256, v / 256 ^ 2 % 256] := rfl
    rw [e1, e2]
    norm_num

/-- The low `width` little-endian bytes of a value depend only on the value
modulo `2 ^ (8 width)`, at widths 1 to 3. -/
theorem spec_le_bytes_mod (bps : Nat) (hbps : bps = 1 ∨ bps = 2 ∨ bps = 3)
    (v : Nat) :
    spec_le_bytes bps (v % 2 ^ (8 * bps)) = spec_le_bytes bps v := by
  rcases hbps with h | h | h <;> subst h
  · have e1 : spec_le_bytes 1 (v % 2 ^ (8 * 1)) =
        [v % 2 ^ (8 * 1) / 256 ^ 0 % 256] := rfl
    have e2 : spec_le_bytes 1 v = [v / 256 ^ 0 % 256] := rfl
    rw [e1, e2]
    norm_num
  · have e1 : spec_le_bytes 2 (v % 2 ^ (8 * 2)) =
        [v % 2 ^ (8 * 2) / 256 ^ 0 % 256, v % 2 ^ (8 * 2) / 256 ^ 1 % 256] := rfl
    have e2 : spec_le_bytes 2 v = [v / 256 ^ 0 % 256, v / 256 ^ 1 % 256] := rfl
    rw [e1, e2]
    norm_num
    omega
  · have e1 : spec_le_bytes 3 (v % 2 ^ (8 * 3)) =
        [v % 2 ^ (8 * 3) / 256 ^ 0 % 256, v % 2 ^ (8 * 3) / 256 ^ 1 % 256,
         v % 2 ^ (8 * 3) / 256 ^ 2 % 256] := rfl
    have e2 : spec_le_bytes 3 v =
        [v / 256 ^ 0 % 256, v / 256 ^ 1 % 256, v / 256 ^ 2 % 256] := rfl
    rw [e1, e2]
    norm_num
    omega

/-- Functional correctness of the per-sample loop at widths 1 to 3: starting
from a processed prefix `done` and an unprocessed suffix `rest` holding `n` full
slots, the loop succeeds and rewrites the suffix slot by slot as `slotMapN`
describes. -/
theorem transform_samples_spec (bps nch : Nat)
    (hbps : bps = 1 ∨ bps = 2 ∨ bps = 3) (hnch : 0 < nch) (f : Nat → Nat → Nat)
    (hf : ∀ c v, f c v < 4294967296) :
    ∀ (n ch : Nat) (done rest : Bytes), rest.length = n * bps →
      (transform_samples .leU32 (4 - bps) bps nch (some f)
          (List.range' done.length n bps) ch (done ++ rest)).1 =
        .ok (done ++ slotMapN bps nch f n ch rest) := by
  intro n
  induction n with
  | zero =>
    intro ch done rest hlen
    have hnil : rest = [] := List.length_eq_zero.mp (by omega)
    subst hnil
    simp [transform_samples, slotMapN]
  | succ k ih =>
    intro ch done rest hlen
    have hbpos : 0 < bps := by rcases hbps with h | h | h <;> omega
    rw [List.range'_succ]
    simp only [transform_samples]
    have hslice : pySlice (done ++ rest) done.length (done.length + bps) =
        rest.take bps := by
      unfold pySlice
      rw [List.drop_left, Nat.add_sub_cancel_left]
    rw [hslice]
    have htake : (rest.take bps).length = bps := by
      rw [List.length_take]
      have hge : bps ≤ rest.length := by
        rw [hlen, Nat.succ_mul]
        omega
      omega
    rw [unpack_slot bps hbps (rest.take bps) htake]
    dsimp only
    rw [if_neg (by omega : ¬nch = 0)]
    have hpack : struct_pack .leU32
        (f ((ch + 1) % nch) (spec_le_val (rest.take bps))) =
        .ok (pack_LEU32 (f ((ch + 1) % nch) (spec_le_val (rest.take bps)))) := by
      simp only [struct_pack]
      rw [if_pos (hf _ _)]
    rw [hpack]
    dsimp only
    rw [pack_slot bps hbps]
    have hassign : pySliceAssign (done ++ rest) done.length (done.length + bps)
        (spec_le_bytes bps (f ((ch + 1) % nch) (spec_le_val (rest.take bps)))) =
        (done ++ spec_le_bytes bps
            (f ((ch + 1) % nch) (spec_le_val (rest.take bps)))) ++
          rest.drop bps := by
      unfold pySliceAssign
      rw [List.take_left, ← List.drop_drop, List.drop_left, List.append_assoc]
    rw [hassign]
    have hstart : done.length + bps =
        (done ++ spec_le_bytes bps
          (f ((ch + 1) % nch) (spec_le_val (rest.take bps)))).length := by
      rw [List.length_append, spec_le_bytes_length]
    rw [hstart]
    have hrest : (rest.drop bps).length = k * bps := by
      rw [List.length_drop, hlen, Nat.succ_mul]
      omega
    rw [ih ((ch + 1) % nch)
      (done ++ spec_le_bytes bps (f ((ch + 1) % nch) (spec_le_val (rest.take bps))))
      (rest.drop bps) hrest]
    rw [slotMapN, List.append_assoc]

/-- Length of `slotMapN`. -/
theorem slotMapN_length (bps nch : Nat) (f : Nat → Nat → Nat) :
    ∀ (n ch : Nat) (rest : Bytes),
      (slotMapN bps nch f n ch rest).length = n * bps := by
  intro n
  induction n with
  | zero => intro ch rest; simp [slotMapN]
  | succ k ih =>
    intro ch rest
    rw [slotMapN, List.length_append, spec_le_bytes_length, ih, Nat.succ_mul]
    omega

/-- Slot `i` of `slotMapN` is the encoding of `f` applied to the shifted channel
index and the decoded slot `i` of the source suffix. -/
theorem slotMapN_slice (bps nch : Nat) (f : Nat → Nat → Nat) :
    ∀ (n ch : Nat) (rest : Bytes) (i : Nat), i < n →
      pySlice (slotMapN bps nch f n ch rest) (bps * i) (bps * i + bps) =
        spec_le_bytes bps (f ((ch + i + 1) % nch)
          (spec_le_val (pySlice rest (bps * i) (bps * i + bps)))) := by
  intro n
  induction n with
  | zero => intro ch rest i hi; omega
  | succ k ih =>
    intro ch rest i hi
    cases i with
    | zero =>
      rw [slotMapN]
      unfold pySlice
      simp only [Nat.mul_zero, List.drop_zero, Nat.zero_add, Nat.sub_zero,
        Nat.add_zero]
      rw [List.take_left' (spec_le_bytes_length bps _)]
    | succ j =>
      have hj : j < k := by omega
      have hih := ih ((ch + 1) % nch) (rest.drop bps) j hj
      rw [slotMapN]
      unfold pySlice at hih ⊢
      rw [Nat.add_sub_cancel_left] at hih
      rw [Nat.add_sub_cancel_left]
      have hch : ((ch + 1) % nch + j + 1) % nch = (ch + (j + 1) + 1) % nch := by
        rw [Nat.add_assoc ((ch + 1) % nch) j 1, Nat.mod_add_mod]
        congr 1
        omega
      rw [hch] at hih
      simp only [show bps * (j + 1) = bps + bps * j from by ring,
        ← List.drop_drop]
      rw [List.drop_left' (spec_le_bytes_length bps _)]
      exact hih

/-- C10: with 1, 2 or 3 bytes per sample and any transform function returning
values below `2^32`, the transform path succeeds on a block of full slots,
preserves its length, and writes sample slot `i` as the low bytes of the
transform's return value — i.e. the value modulo `2^(8 bytes_per_sample)` — the
high bytes being dropped by the padding truncation, with no error raised and no
effect on any other slot (each output slot depends only on its own source
slot). -/
theorem c10_transform_values_truncated (bps : Nat)
    (hbps : bps = 1 ∨ bps = 2 ∨ bps = 3) (nch : Nat) (hnch : 0 < nch)
    (f : Nat → Nat → Nat) (hf : ∀ c v, f c v < 4294967296) (fmt : StructFmt)
    (padLen : Nat)
    (hsel : get_per_sample_struct_format_str_and_padding bps = .ok (fmt, padLen))
    (data : Bytes) (hlen : data.length % bps = 0) :
    ∃ out, (transform_block fmt padLen bps nch (some f) data).1 = .ok out ∧
      out.length = data.length ∧
      ∀ i, i < data.length / bps →
        pySlice out (bps * i) (bps * i + bps) =
          spec_le_bytes bps
            (f ((i + 1) % nch)
              (spec_le_val (pySlice data (bps * i) (bps * i + bps))) %
              2 ^ (8 * bps)) := by
  have hfmt : fmt = StructFmt.leU32 ∧ padLen = 4 - bps := by
    rcases hbps with h | h | h <;> subst h <;>
      simp [get_per_sample_struct_format_str_and_padding] at hsel <;>
      exact ⟨hsel.1.symm, hsel.2.symm⟩
  obtain ⟨hfm, hpd⟩ := hfmt
  subst hfm
  subst hpd
  have hbpos : 0 < bps := by rcases hbps with h | h | h <;> omega
  refine ⟨slotMapN bps nch f (data.length / bps) 0 data, ?_, ?_, ?_⟩
  · unfold transform_block
    rw [if_neg (by omega)]
    have hcount : pyRange0 data.length bps =
        List.range' 0 (data.length / bps) bps := by
      unfold pyRange0
      congr 1
      rcases hbps with h | h | h <;> subst h <;> omega
    rw [hcount]
    have hspec := transform_samples_spec bps nch hbps hnch f hf
      (data.length / bps) 0 [] data
      (by rcases hbps with h | h | h <;> subst h <;> omega)
    simpa using hspec
  · rw [slotMapN_length]
    rcases hbps with h | h | h <;> subst h <;> omega
  · intro i hi
    rw [slotMapN_slice bps nch f (data.length / bps) 0 data i hi]
    rw [spec_le_bytes_mod bps hbps]
    rw [Nat.zero_add]

/-- Witness for C10: a 16-bit stereo block of two slots through a transform
returning 65537 (which exceeds the 16-bit width). -/
theorem c10_transform_values_truncated_witness :
    ∃ out, (transform_block .leU32 2 2 2 (some fun _ _ => 65537) [1, 0, 3, 0]).1 =
        .ok out ∧
      out.length = ([1, 0, 3, 0] : Bytes).length ∧
      ∀ i, i < ([1, 0, 3, 0] : Bytes).length / 2 →
        pySlice out (2 * i) (2 * i + 2) =
          spec_le_bytes 2
            ((fun _ _ => 65537) ((i + 1) % 2)
              (spec_le_val (pySlice [1, 0, 3, 0] (2 * i) (2 * i + 2))) %
              2 ^ (8 * 2)) :=
  c10_transform_values_truncated 2 (by decide) 2 (by decide) (fun _ _ => 65537)
    (fun c v => (by decide : (65537 : Nat) < 4294967296)) .leU32 2 rfl
    [1, 0, 3, 0] (by decide)

end WavUtil
